import Mathlib

/-!
Verification of the trade-exit simulation engine in `backtesting.py`.

Dates are modelled as integers counting calendar days (so `d - 1` is the
previous calendar day and a difference of dates is a count of calendar days,
matching `pd.Timedelta(days=i)` and `(exit_date - entry_date).days`).
Close prices and all derived quantities are modelled as exact rationals.
-/

namespace AlgoBacktest

abbrev Date := ℤ

/-- One row of a per-instrument close-price series: `(date, close_price)`. -/
structure PriceBar where
  date : Date
  close : ℚ
deriving DecidableEq, Repr

/-- A per-instrument price series, in the row order of the dataframe
(the SQL query orders by date ascending). -/
abbrev PriceSeries := List PriceBar

/-- `date in df_stock.index` / `df_stock.loc[date, "close_price"]`:
look a date up in the series and return its close price when present. -/
def lookupClose (df_stock : PriceSeries) (date : Date) : Option ℚ :=
  (df_stock.find? (fun b => b.date = date)).map PriceBar.close

/-- The `for date in possible_days` loop body of `get_valid_entry_date`:
return the first candidate date present in the series, with its price. -/
def firstPresent (df_stock : PriceSeries) : List Date → Option (Date × ℚ)
  | [] => Option.none
  | d :: ds =>
    match lookupClose df_stock d with
    | Option.some p => Option.some (d, p)
    | Option.none => firstPresent df_stock ds

/-- `get_valid_entry_date(df_stock, week_end_date)`: the candidate days are
`[week_end_date - i for i in range(3)]`, i.e. the reference date and the two
preceding calendar days, scanned in that order. -/
def get_valid_entry_date (df_stock : PriceSeries) (week_end_date : Date) :
    Option (Date × ℚ) :=
  firstPresent df_stock [week_end_date, week_end_date - 1, week_end_date - 2]

/-- One row of `high_volume_weeks`: a candidate signal. -/
structure SignalRow where
  stock_symbol : String
  week_end_date : Date
  volume_multiple : ℚ
  rsi_value : ℚ
  weekly_volume : ℚ
deriving DecidableEq, Repr

/-- The result row built at the end of `process_stock`. -/
structure Trade where
  stock_symbol : String
  entry_date : Date
  entry_price : ℚ
  exit_date : Date
  exit_price : ℚ
  profit_loss : ℚ
  profit_loss_pct : ℚ
  profit_or_loss : String
  days_in_trade : ℤ
  volume_multiple : ℚ
  rsi_value : ℚ
  weekly_volume : ℚ
deriving DecidableEq, Repr

/-- The three `if` statements of the loop body of `process_stock` that update
the trailing stop-loss, applied in program order to the close `price` of that day:
`target1 = entry_price*1.15`, `target2 = entry_price*1.25`,
`target3 = entry_price*1.35`; the first sets the stop to `entry_price*1.01`,
the second to `target1`, the third to `target2`.  Each `if` is checked
independently (no `elif`), so they apply cumulatively. -/
def ratchet (entry_price stop_loss price : ℚ) : ℚ :=
  let s1 := if entry_price * 1.15 ≤ price then entry_price * 1.01 else stop_loss
  let s2 := if entry_price * 1.25 ≤ price then entry_price * 1.15 else s1
  let s3 := if entry_price * 1.35 ≤ price then entry_price * 1.25 else s2
  s3

/-- The scanning loop of `process_stock`: walk the future bars in order,
update the stop-loss by `ratchet`, then exit at `(date, price)` as soon as
`price <= stop_loss or price >= target3`; `none` when the series is exhausted
without an exit. -/
def scanExit (entry_price : ℚ) : ℚ → PriceSeries → Option (Date × ℚ)
  | _, [] => Option.none
  | stop_loss, bar :: rest =>
    let stop' := ratchet entry_price stop_loss bar.close
    if bar.close ≤ stop' ∨ entry_price * 1.35 ≤ bar.close then
      Option.some (bar.date, bar.close)
    else
      scanExit entry_price stop' rest

/-- The sequence of effective stop-loss values, one per evaluated day, taken
after that day has run its ratchet update, for the same walk as `scanExit`
(the value on the exit day is the last element; days after an exit are not evaluated). -/
def stopTrace (entry_price : ℚ) : ℚ → PriceSeries → List ℚ
  | _, [] => []
  | stop_loss, bar :: rest =>
    let stop' := ratchet entry_price stop_loss bar.close
    if bar.close ≤ stop' ∨ entry_price * 1.35 ≤ bar.close then
      [stop']
    else
      stop' :: stopTrace entry_price stop' rest

/-- `stock_data_dict`: mapping from stock symbol to its price series. -/
abbrev StockData := List (String × PriceSeries)

/-- `stock_data_dict.get(stock)`. -/
def StockData.get (d : StockData) (s : String) : Option PriceSeries :=
  (d.find? (fun kv => kv.1 = s)).map Prod.snd

/-- `process_stock(row, stock_data_dict)`: resolve the entry, walk the strictly
later bars with `scanExit` (initial stop-loss `entry_price * 0.7`), and on exit
build the result row; `none` when the instrument is unknown, no entry date
resolves, or no exit triggers. -/
def process_stock (row : SignalRow) (stock_data_dict : StockData) : Option Trade :=
  match stock_data_dict.get row.stock_symbol with
  | Option.none => Option.none
  | Option.some df_stock =>
    match get_valid_entry_date df_stock row.week_end_date with
    | Option.none => Option.none
    | Option.some (entry_date, entry_price) =>
      let future_data := df_stock.filter (fun b => entry_date < b.date)
      match scanExit entry_price (entry_price * 0.7) future_data with
      | Option.none => Option.none
      | Option.some (exit_date, exit_price) =>
        let profit_loss := exit_price - entry_price
        Option.some
          { stock_symbol := row.stock_symbol
            entry_date := entry_date
            entry_price := entry_price
            exit_date := exit_date
            exit_price := exit_price
            profit_loss := profit_loss
            profit_loss_pct := (exit_price / entry_price - 1) * 100
            profit_or_loss := if 0 < profit_loss then "Profit" else "Loss"
            days_in_trade := exit_date - entry_date
            volume_multiple := row.volume_multiple
            rsi_value := row.rsi_value
            weekly_volume := row.weekly_volume }

/-- The collection step of `run_backtest`: every candidate row is submitted to
`process_stock` and the non-`None` results are collected (the completion order of
the thread pool only permutes the list, which the theorems account for). -/
def run_backtest_trades (high_vol_weeks : List SignalRow) (stock_data_dict : StockData) :
    List Trade :=
  high_vol_weeks.filterMap (fun row => process_stock row stock_data_dict)

/-!
Model of `generate_backtest_summary`.  The Python values flowing into the
summary dict are numpy floats (which may be NaN after an empty `mean`/`min`,
or infinite after a division by zero), the string `"N/A"`, or `None`; the
built-in `round(x, 2)` raises `TypeError` on the string and on `None`.
-/

/-- A Python value as it appears in the summary computation. -/
inductive PyVal where
  | num (q : ℚ)
  | nan
  | inf
  | str (s : String)
  | pynone
deriving DecidableEq, Repr

/-- Python truthiness of such a value (`float("nan")` is truthy; `0.0`,
the empty string and `None` are falsy). -/
def PyVal.truthy : PyVal → Bool
  | .num q => decide (q ≠ 0)
  | .nan => true
  | .inf => true
  | .str s => decide (s ≠ "")
  | .pynone => false

/-- numpy-float division on such values: NaN propagates; a zero denominator
gives NaN for `0/0` and infinity otherwise (numpy floats do not raise). -/
def pyDiv : PyVal → PyVal → PyVal
  | .nan, _ => .nan
  | _, .nan => .nan
  | .num x, .num y => if y = 0 then (if x = 0 then .nan else .inf) else .num (x / y)
  | .num _, .inf => .num 0
  | .inf, _ => .inf
  | _, _ => .nan

/-- `abs` on such values. -/
def pyAbs : PyVal → PyVal
  | .num q => .num |q|
  | .nan => .nan
  | .inf => .inf
  | v => v

/-- `Series.mean()`: NaN on an empty series, otherwise the arithmetic mean. -/
def pdMean (l : List ℚ) : PyVal :=
  if l.isEmpty then PyVal.nan else PyVal.num (l.sum / l.length)

/-- `Series.min()`: NaN on an empty series, otherwise the minimum. -/
def pdMin : List ℚ → PyVal
  | [] => PyVal.nan
  | x :: xs => PyVal.num (xs.foldl min x)

/-- Round to the nearest integer, ties to even (the rounding mode of Python). -/
def roundHalfEven (x : ℚ) : ℤ :=
  let f := Int.floor x
  let r := x - f
  if r < 1 / 2 then f
  else if 1 / 2 < r then f + 1
  else if f % 2 = 0 then f else f + 1

/-- `round(q, 2)` on a number. -/
def pyRound2 (q : ℚ) : ℚ := (roundHalfEven (q * 100) : ℚ) / 100

/-- A raised Python exception, as far as the summary computation can raise
one: the built-in `round` applied to a string or to `None` raises `TypeError`
(type str / NoneType does not define a rounding method). -/
inductive PyError where
  | roundTypeErrorStr
  | roundTypeErrorNone
deriving DecidableEq, Repr

/-- `round(v, 2)` on a summary value: numbers are rounded, NaN and infinity
pass through, and a string or `None` raises `TypeError`. -/
def pyRound2V : PyVal → Except PyError PyVal
  | .num q => .ok (.num (pyRound2 q))
  | .nan => .ok .nan
  | .inf => .ok .inf
  | .str _ => .error PyError.roundTypeErrorStr
  | .pynone => .error PyError.roundTypeErrorNone

/-- The summary dict written by `generate_backtest_summary`. -/
structure BacktestSummary where
  total_trades : ℕ
  win_ratio_pct : PyVal
  avg_profit_pct : PyVal
  avg_loss_pct : PyVal
  max_drawdown_pct : PyVal
  profit_factor : PyVal
  risk_reward_ratio : PyVal
deriving DecidableEq, Repr

/-- `generate_backtest_summary(df)`: wins/losses are the rows whose
`Profit or Loss` column is `"Profit"`/`"Loss"`; the statistics are computed
as in the source (`win_ratio` guarded by `if total_trades`, `risk_reward`
guarded by the truthiness of `avg_loss_pct`, `profit_factor` replaced by the
string `"N/A"` when there are no losses), and the summary dict applies
`round(_, 2)` to each of them in program order, so the first `TypeError`
aborts the function.  (`avg_days_profit`/`avg_days_loss` are computed in the
source but never rounded or output, so they cannot raise and are omitted.) -/
def generate_backtest_summary (df : List Trade) : Except PyError BacktestSummary := do
  let total_trades := df.length
  let wins := df.filter (fun t => t.profit_or_loss = "Profit")
  let losses := df.filter (fun t => t.profit_or_loss = "Loss")
  let win_ratio : ℚ :=
    if total_trades ≠ 0 then (wins.length : ℚ) / (total_trades : ℚ) * 100 else 0
  let avg_profit_pct := pdMean (wins.map Trade.profit_loss_pct)
  let avg_loss_pct := pdMean (losses.map Trade.profit_loss_pct)
  let risk_reward_ratio :=
    if avg_loss_pct.truthy then pyAbs (pyDiv avg_profit_pct avg_loss_pct)
    else PyVal.pynone
  let max_drawdown := pdMin (df.map Trade.profit_loss_pct)
  let profit_factor :=
    if ¬ losses.isEmpty then
      pyDiv (PyVal.num (wins.map Trade.profit_loss).sum)
        (pyAbs (PyVal.num (losses.map Trade.profit_loss).sum))
    else PyVal.str ("N/A")
  let wr ← pyRound2V (PyVal.num win_ratio)
  let ap ← pyRound2V avg_profit_pct
  let al ← pyRound2V avg_loss_pct
  let md ← pyRound2V max_drawdown
  let pf ← pyRound2V profit_factor
  let rr ← pyRound2V risk_reward_ratio
  return { total_trades := total_trades
           win_ratio_pct := wr
           avg_profit_pct := ap
           avg_loss_pct := al
           max_drawdown_pct := md
           profit_factor := pf
           risk_reward_ratio := rr }

/-!
Helper lemmas shared by several theorems.
-/

/-- An exit returned by the scanning loop is one of the scanned bars. -/
theorem scanExit_mem {entry_price : ℚ} :
    ∀ {stop_loss : ℚ} {bars : PriceSeries} {d : Date} {p : ℚ},
      scanExit entry_price stop_loss bars = Option.some (d, p) →
      ∃ b ∈ bars, b.date = d ∧ b.close = p := by
  intro stop_loss bars
  induction bars generalizing stop_loss with
  | nil => intro d p h; simp [scanExit] at h
  | cons bar rest ih =>
    intro d p h
    simp only [scanExit] at h
    split at h
    · simp only [Option.some.injEq, Prod.mk.injEq] at h
      exact ⟨bar, List.mem_cons_self bar rest, h.1, h.2⟩
    · obtain ⟨b, hb, hbd, hbc⟩ := ih h
      exact ⟨b, List.mem_cons_of_mem bar hb, hbd, hbc⟩

/-- Anatomy of a produced trade: how every derived field of the result row of
`process_stock` is computed, and the fact that the exit date is drawn from the
bars strictly after the entry date. -/
theorem process_stock_some_spec {row : SignalRow} {sd : StockData} {t : Trade}
    (h : process_stock row sd = Option.some t) :
    t.profit_loss = t.exit_price - t.entry_price ∧
    t.profit_loss_pct = (t.exit_price / t.entry_price - 1) * 100 ∧
    t.profit_or_loss = (if 0 < t.profit_loss then "Profit" else "Loss") ∧
    t.days_in_trade = t.exit_date - t.entry_date ∧
    t.entry_date < t.exit_date := by
  simp only [process_stock] at h
  split at h
  · simp at h
  split at h
  · simp at h
  next ed ep _ =>
    split at h
    · simp at h
    next xd xp hexit =>
      obtain rfl : _ = t := Option.some.inj h
      refine ⟨rfl, rfl, rfl, rfl, ?_⟩
      obtain ⟨b, hb, hbd, _⟩ := scanExit_mem hexit
      have hlt := (List.mem_filter.mp hb).2
      simp only [decide_eq_true_eq] at hlt
      simpa [← hbd] using hlt

/-!
THEOREMS (one per claim, with witnesses).
-/

/-- C4: every produced trade has `profit_loss = exit_price − entry_price`,
`profit_loss_pct = (exit_price/entry_price − 1) × 100`,
`days_in_trade = exit_date − entry_date` in calendar days, and
`profit_or_loss = "Profit"` exactly when `profit_loss > 0`, a zero
`profit_loss` being classified `"Loss"`. -/
theorem trade_outcome_fields (row : SignalRow) (sd : StockData) (t : Trade)
    (h : process_stock row sd = Option.some t) :
    t.profit_loss = t.exit_price - t.entry_price ∧
    t.profit_loss_pct = (t.exit_price / t.entry_price - 1) * 100 ∧
    t.days_in_trade = t.exit_date - t.entry_date ∧
    (t.profit_or_loss = "Profit" ↔ 0 < t.profit_loss) ∧
    (t.profit_loss = 0 → t.profit_or_loss = "Loss") := by
  obtain ⟨h1, h2, h3, h4, _⟩ := process_stock_some_spec h
  refine ⟨h1, h2, h4, ?_, ?_⟩
  · rw [h3]
    split
    · simpa
    · simp_all
  · intro hz
    rw [h3, if_neg (by rw [hz]; exact lt_irrefl 0)]

/-- C7: every produced trade exits strictly after its entry date, and
`days_in_trade` is nonnegative. -/
theorem exit_strictly_after_entry (row : SignalRow) (sd : StockData) (t : Trade)
    (h : process_stock row sd = Option.some t) :
    t.entry_date < t.exit_date ∧ 0 ≤ t.days_in_trade := by
  obtain ⟨_, _, _, h4, h5⟩ := process_stock_some_spec h
  exact ⟨h5, by rw [h4]; linarith [h5]⟩

/-- C9: strengthening of the stated bound `days_held ≥ 0`: since the exit day is
drawn only from dates strictly after the entry date, every produced trade has
`days_in_trade ≥ 1`. -/
theorem days_in_trade_pos (row : SignalRow) (sd : StockData) (t : Trade)
    (h : process_stock row sd = Option.some t) :
    1 ≤ t.days_in_trade := by
  obtain ⟨_, _, _, h4, h5⟩ := process_stock_some_spec h
  rw [h4]
  have : t.entry_date + 1 ≤ t.exit_date := Int.add_one_le_iff.mpr h5
  linarith [this]

/-- C10: a trade whose exit-day close reaches the final target
(`exit_price ≥ entry_price × 1.35`, with a positive entry price) is
necessarily classified `"Profit"`. -/
theorem target3_exit_is_profit (row : SignalRow) (sd : StockData) (t : Trade)
    (h : process_stock row sd = Option.some t) (hpos : 0 < t.entry_price)
    (h3 : t.entry_price * 1.35 ≤ t.exit_price) :
    t.profit_or_loss = "Profit" := by
  obtain ⟨h1, _, h0, _, _⟩ := process_stock_some_spec h
  rw [h0, if_pos]
  rw [h1]
  nlinarith

/-!
Concrete sample runs used by the witnesses and the scenario theorem.
-/

/-- Entry day close 100, then future closes 90, 116, 69. -/
def sampleSeries : PriceSeries := [⟨0, 100⟩, ⟨1, 90⟩, ⟨2, 116⟩, ⟨3, 69⟩]

def sampleData : StockData := [("HVW", sampleSeries)]

def sampleRow : SignalRow := ⟨"HVW", 0, 2, 55, 1000⟩

def sampleTrade : Trade := ⟨"HVW", 0, 100, 3, 69, -31, -31, "Loss", 3, 2, 55, 1000⟩

theorem sample_run : process_stock sampleRow sampleData = Option.some sampleTrade := by
  norm_num [process_stock, sampleRow, sampleData, sampleSeries, sampleTrade,
    StockData.get, get_valid_entry_date, firstPresent, lookupClose,
    List.find?, List.filter, scanExit, ratchet]

/-- Entry day close 100, then a single future close 140 (past the final
target), forcing a target-3 exit. -/
def sampleSeries2 : PriceSeries := [⟨0, 100⟩, ⟨1, 140⟩]

def sampleData2 : StockData := [("TGT", sampleSeries2)]

def sampleRow2 : SignalRow := ⟨"TGT", 0, 3, 60, 500⟩

def sampleTrade2 : Trade := ⟨"TGT", 0, 100, 1, 140, 40, 40, "Profit", 1, 3, 60, 500⟩

theorem sample_run2 : process_stock sampleRow2 sampleData2 = Option.some sampleTrade2 := by
  norm_num [process_stock, sampleRow2, sampleData2, sampleSeries2, sampleTrade2,
    StockData.get, get_valid_entry_date, firstPresent, lookupClose,
    List.find?, List.filter, scanExit, ratchet]

/-- Witness for C4 at the concrete trade of `sample_run`. -/
theorem trade_outcome_fields_witness :
    sampleTrade.profit_loss = sampleTrade.exit_price - sampleTrade.entry_price ∧
    sampleTrade.profit_loss_pct = (sampleTrade.exit_price / sampleTrade.entry_price - 1) * 100 ∧
    sampleTrade.days_in_trade = sampleTrade.exit_date - sampleTrade.entry_date ∧
    (sampleTrade.profit_or_loss = "Profit" ↔ 0 < sampleTrade.profit_loss) ∧
    (sampleTrade.profit_loss = 0 → sampleTrade.profit_or_loss = "Loss") :=
  trade_outcome_fields sampleRow sampleData sampleTrade sample_run

/-- Witness for C7 at the concrete trade of `sample_run`. -/
theorem exit_strictly_after_entry_witness :
    sampleTrade.entry_date < sampleTrade.exit_date ∧ 0 ≤ sampleTrade.days_in_trade :=
  exit_strictly_after_entry sampleRow sampleData sampleTrade sample_run

/-- Witness for C9 at the concrete trade of `sample_run`. -/
theorem days_in_trade_pos_witness : 1 ≤ sampleTrade.days_in_trade :=
  days_in_trade_pos sampleRow sampleData sampleTrade sample_run

/-- Witness for C10 at the concrete trade of `sample_run2`. -/
theorem target3_exit_is_profit_witness : sampleTrade2.profit_or_loss = "Profit" :=
  target3_exit_is_profit sampleRow2 sampleData2 sampleTrade2 sample_run2
    (by norm_num [sampleTrade2]) (by norm_num [sampleTrade2])

/-- C6: for entry price 100 and future close path 90, 116, 69 (the reference
scenario), the simulation continues through days 1 and 2 — the stop-loss
stays at 70 on day 1 and is raised to 101 on day 2 — and exits on day 3 at
price 69, yielding a trade classified `"Loss"` with `profit_loss = −31` and
`profit_loss_pct = −31`. -/
theorem scenario_loss_trade :
    stopTrace 100 (100 * 0.7) [⟨1, 90⟩, ⟨2, 116⟩, ⟨3, 69⟩] = [70, 101, 101] ∧
    process_stock sampleRow sampleData = Option.some sampleTrade ∧
    sampleTrade.exit_date = 3 ∧ sampleTrade.exit_price = 69 ∧
    sampleTrade.profit_or_loss = "Loss" ∧ sampleTrade.profit_loss = -31 ∧
    sampleTrade.profit_loss_pct = -31 := by
  refine ⟨by norm_num [stopTrace, ratchet], ?_, rfl, rfl, rfl, rfl, rfl⟩
  norm_num [process_stock, sampleRow, sampleData, sampleSeries, sampleTrade,
    StockData.get, get_valid_entry_date, firstPresent, lookupClose,
    List.find?, List.filter, scanExit, ratchet]

/-- C1: the effective stop-loss is NOT non-decreasing: with entry price 100
(positive) and future closes 126 then 116, day 1 ratchets the stop to 115
(since 126 ≥ target2 = 125) without exiting, and day 2 — where 116 ≥ target1
but 116 < target2 — overwrites the stop back down to 101, because each `if`
reassigns the stop unconditionally instead of ratcheting it upward.  The day-2
stop is strictly below the day-1 stop, contradicting the claimed invariant. -/
theorem stop_trace_not_monotone :
    stopTrace 100 (100 * 0.7) [⟨1, 126⟩, ⟨2, 116⟩] = [115, 101] ∧
    ¬ List.Pairwise (· ≤ ·) (stopTrace 100 (100 * 0.7) [⟨1, 126⟩, ⟨2, 116⟩]) := by
  have h : stopTrace 100 (100 * 0.7) [⟨1, 126⟩, ⟨2, 116⟩] = [115, 101] := by
    norm_num [stopTrace, ratchet]
  refine ⟨h, ?_⟩
  rw [h]
  intro hp
  have := List.rel_of_pairwise_cons hp (List.mem_singleton.mpr rfl)
  norm_num at this

/-- C2: on zero trades `generate_backtest_summary` raises instead of
returning a summary: `losses` is empty, so `profit_factor` is the string
`"N/A"`, and building the summary dict evaluates `round("N/A", 2)`, which
raises `TypeError` — the function never reaches its output. -/
theorem summary_empty_trades_raises :
    generate_backtest_summary [] = Except.error PyError.roundTypeErrorStr := by
  norm_num [generate_backtest_summary, pdMean, pdMin, PyVal.truthy, pyDiv,
    pyAbs, pyRound2V, pyRound2, roundHalfEven, List.filter, Except.pure,
    bind, Except.bind]

/-- C3: one simulation step applies the three ratchet rules independently and
cumulatively — the updated stop is `entry_price × 1.25` whenever the close
reaches `entry_price × 1.35`, `entry_price × 1.15` whenever it reaches
`entry_price × 1.25` but not `×1.35`, `entry_price × 1.01` whenever it
reaches `×1.15` but not `×1.25`, and unchanged below `×1.15` — and only then
checks exit: when the close of that day is ≤ the updated stop or ≥
`entry_price × 1.35` the walk returns `(date, close)` immediately, with no
further day evaluated; otherwise it continues on the rest with the updated
stop. -/
theorem ratchet_cumulative_then_exit (entry_price stop_loss : ℚ)
    (hpos : 0 < entry_price) (bar : PriceBar) (rest : PriceSeries) :
    (entry_price * 1.35 ≤ bar.close →
        ratchet entry_price stop_loss bar.close = entry_price * 1.25) ∧
    (entry_price * 1.25 ≤ bar.close → bar.close < entry_price * 1.35 →
        ratchet entry_price stop_loss bar.close = entry_price * 1.15) ∧
    (entry_price * 1.15 ≤ bar.close → bar.close < entry_price * 1.25 →
        ratchet entry_price stop_loss bar.close = entry_price * 1.01) ∧
    (bar.close < entry_price * 1.15 →
        ratchet entry_price stop_loss bar.close = stop_loss) ∧
    ((bar.close ≤ ratchet entry_price stop_loss bar.close ∨
        entry_price * 1.35 ≤ bar.close) →
        scanExit entry_price stop_loss (bar :: rest) =
          Option.some (bar.date, bar.close)) ∧
    (¬ (bar.close ≤ ratchet entry_price stop_loss bar.close ∨
        entry_price * 1.35 ≤ bar.close) →
        scanExit entry_price stop_loss (bar :: rest) =
          scanExit entry_price (ratchet entry_price stop_loss bar.close) rest) := by
  refine ⟨?_, ?_, ?_, ?_, ?_, ?_⟩
  · intro h3
    simp only [ratchet]
    rw [if_pos h3]
  · intro h2 h3
    simp only [ratchet]
    rw [if_neg (not_le.mpr h3), if_pos h2]
  · intro h1 h2
    have h3 : ¬ entry_price * 1.35 ≤ bar.close := by
      intro hc; nlinarith
    simp only [ratchet]
    rw [if_neg h3, if_neg (not_le.mpr h2), if_pos h1]
  · intro h1
    have h2 : ¬ entry_price * 1.25 ≤ bar.close := by
      intro hc; nlinarith
    have h3 : ¬ entry_price * 1.35 ≤ bar.close := by
      intro hc; nlinarith
    simp only [ratchet]
    rw [if_neg h3, if_neg h2, if_neg (not_le.mpr h1)]
  · intro hex
    simp only [scanExit]
    rw [if_pos hex]
  · intro hex
    simp only [scanExit]
    rw [if_neg hex]

/-- Witness for C3: entry price 100, incoming stop 70, a day closing at 140
(past all three targets in one step): the stop ratchets through all three
levels to 125 and the walk exits that day at price 140. -/
theorem ratchet_cumulative_then_exit_witness :
    ratchet 100 70 140 = 100 * 1.25 ∧
    scanExit 100 70 [⟨5, 140⟩] = Option.some (5, 140) := by
  have h := ratchet_cumulative_then_exit 100 70 (by norm_num) ⟨5, 140⟩ []
  exact ⟨h.1 (by norm_num), h.2.2.2.2.1 (Or.inr (by norm_num))⟩

/-- C5: entry resolution examines exactly the reference date and the two
preceding calendar days, in that order, and returns the first of them present
in the series with its close price; when none of the three is present it
returns nothing. -/
theorem entry_resolution_first_of_three (df : PriceSeries) (w : Date) :
    (∀ p, lookupClose df w = Option.some p →
        get_valid_entry_date df w = Option.some (w, p)) ∧
    (lookupClose df w = Option.none →
        ∀ p, lookupClose df (w - 1) = Option.some p →
        get_valid_entry_date df w = Option.some (w - 1, p)) ∧
    (lookupClose df w = Option.none → lookupClose df (w - 1) = Option.none →
        ∀ p, lookupClose df (w - 2) = Option.some p →
        get_valid_entry_date df w = Option.some (w - 2, p)) ∧
    (lookupClose df w = Option.none → lookupClose df (w - 1) = Option.none →
        lookupClose df (w - 2) = Option.none →
        get_valid_entry_date df w = Option.none) := by
  refine ⟨?_, ?_, ?_, ?_⟩
  · intro p hp
    simp [get_valid_entry_date, firstPresent, hp]
  · intro h0 p hp
    simp [get_valid_entry_date, firstPresent, h0, hp]
  · intro h0 h1 p hp
    simp [get_valid_entry_date, firstPresent, h0, h1, hp]
  · intro h0 h1 h2
    simp [get_valid_entry_date, firstPresent, h0, h1, h2]

/-- Witness for C5: a series containing only day 4, queried with reference
date 6, resolves the entry to day 4 (= 6 − 2) at its close price. -/
theorem entry_resolution_first_of_three_witness :
    get_valid_entry_date [⟨4, 50⟩] 6 = Option.some (6 - 2, 50) := by
  have h := entry_resolution_first_of_three [⟨4, 50⟩] 6
  refine h.2.2.1 ?_ ?_ 50 ?_ <;> norm_num [lookupClose, List.find?]

/-- C8: the backtest is deterministic up to collection order: two runs over
the same signal set and price data — where the pool may hand back the
candidates in any order, i.e. any permutation of the signal rows — produce
permutations of one another, hence the same multiset of trades. -/
theorem backtest_deterministic_up_to_order (s1 s2 : List SignalRow)
    (sd : StockData) (h : s1.Perm s2) :
    (run_backtest_trades s1 sd).Perm (run_backtest_trades s2 sd) :=
  h.filterMap fun row => process_stock row sd

/-- Witness for C8: the two sample signals processed in either order yield
permuted trade lists. -/
theorem backtest_deterministic_up_to_order_witness :
    (run_backtest_trades [sampleRow, sampleRow2]
        [("HVW", sampleSeries), ("TGT", sampleSeries2)]).Perm
      (run_backtest_trades [sampleRow2, sampleRow]
        [("HVW", sampleSeries), ("TGT", sampleSeries2)]) :=
  backtest_deterministic_up_to_order _ _ _ (List.Perm.swap sampleRow2 sampleRow [])

end AlgoBacktest
